import Mathlib

/-!
Verification of the inline-query resolution pipeline of `Plugins/inline.py`
(the kevyabdi/Inline10 repository).

Python strings are embedded as Lean `String` (a wrapper around `List Char`);
the Python helpers `strip`, `lower`, slicing and `split(sep, 1)` are
translated below.  The external collaborators (`utils.is_subscribed`,
`utils.is_authorized_user`, `utils.format_file_size`,
`utils.get_file_type_emoji`, `config.Config` and the database methods
`client.db.get_recent_videos` / `client.db.search_media`) are not part of
the sources; they are modelled as parameters of an environment, following
the interface stated by the specification.  Exceptions thrown by the
pyrogram result constructors are modelled by a boolean oracle: the code
catches every such exception, so only *whether* a construction raises is
observable.
-/

namespace Inline10

/-! ## Python string operations -/

/-- Python `str.strip()` on the character list: drop whitespace from both ends. -/
def pyStripList (s : List Char) : List Char :=
  ((s.dropWhile Char.isWhitespace).reverse.dropWhile Char.isWhitespace).reverse

/-- Python `str.strip()`. -/
def pyStrip (s : String) : String := String.mk (pyStripList s.data)

/-- Python `str.lower()` (ASCII-adequate model). -/
def pyLower (s : String) : String := String.mk (s.data.map Char.toLower)

/-- Python slicing `s[:n]` (by characters). -/
def pyTake (n : Nat) (s : String) : String := String.mk (s.data.take n)

/-- Python character count `len(s)`. -/
def pyLen (s : String) : Nat := s.data.length

/-- Whether `p` is an initial segment of `s`. -/
def isPrefOf : List Char → List Char → Bool
  | [], _ => true
  | _ :: _, [] => false
  | a :: as, b :: bs => a == b && isPrefOf as bs

/-- Python `sep in s`: `sep` occurs as a contiguous substring of `s`. -/
def occursIn (sep : List Char) : List Char → Bool
  | [] => isPrefOf sep []
  | c :: rest => isPrefOf sep (c :: rest) || occursIn sep rest

/-- Split at the first occurrence of `sep` (Python `s.split(sep, 1)` when
`sep` occurs): returns the part before the first occurrence and the part
after it. -/
def splitFirst (sep : List Char) : List Char → Option (List Char × List Char)
  | [] => none
  | c :: rest =>
      if isPrefOf sep (c :: rest) then some ([], (c :: rest).drop sep.length)
      else
        match splitFirst sep rest with
        | some (a, b) => some (c :: a, b)
        | none => none

/-- `String` version of `splitFirst`. -/
def pySplitOnce (sep s : String) : Option (String × String) :=
  (splitFirst sep.data s.data).map fun p => (String.mk p.1, String.mk p.2)

/-- `String` version of Python `sep in s`. -/
def pyContains (sep s : String) : Bool := occursIn sep.data s.data

/-- The character list of the literal separator `" | "`. -/
def sepChars : List Char := (" | ").data

/-- A single-quote character, kept out of string literals. -/
def quoteS : String := String.mk [Char.ofNat 39]

/-! ## Data model -/

/-- A media record handed back by the external index (a Python dict in the
source); `none` in an `Option` field models an absent key, matching the
`media.get(...)` accesses of `create_inline_result`. -/
structure MediaRecord where
  file_type : Option String
  file_name : Option String
  file_size : Nat
  caption : String
  file_id : Option String
deriving DecidableEq

/-- Python truthiness of `media.get("file_id")`: an absent key or an empty
string fails the `if not file_id` validation. -/
def truthy : Option String → Option String
  | none => none
  | some s => if s = "" then none else some s

/-- The effective file type: `media.get("file_type", "document")` followed by
`if not file_type: file_type = "document"`. -/
def effType (m : MediaRecord) : String :=
  let ft := m.file_type.getD "document"
  if ft = "" then "document" else ft

/-- `display_name`: the file name truncated to 47 characters plus an
ellipsis when longer than 50 (default name `"Unknown"`). -/
def displayName (m : MediaRecord) : String :=
  let fn := m.file_name.getD "Unknown"
  if pyLen fn ≤ 50 then fn else pyTake 47 fn ++ "..."

/-- Oracle standing for the pyrogram result constructors raising: the code
catches every constructor exception, so exactly one bit per construction
site is observable.  Each field tells whether the constructor call at that
site raises for the given record and index. -/
structure ExcOracle where
  video : MediaRecord → Nat → Bool
  docFallback : MediaRecord → Nat → Bool
  document : MediaRecord → Nat → Bool
  audio : MediaRecord → Nat → Bool
  photo : MediaRecord → Nat → Bool
  gif : MediaRecord → Nat → Bool
  other : MediaRecord → Nat → Bool

/-- Rendering environment.  `format_file_size` and `emoji` are modelled from
the spec: the helpers `utils.format_file_size` and
`utils.get_file_type_emoji` are not in the sources; the spec describes them
as a human-readable size string and a fixed lookup by type tag, so they are
carried as opaque string-valued parameters. -/
structure RenderEnv where
  exc : ExcOracle
  format_file_size : Nat → String
  emoji : String → String

/-- `description`: the size string (or `"Unknown size"` when the size is
absent/zero), with a bullet-separated caption truncated at 100 characters
appended when the caption is non-empty. -/
def mediaDescription (renv : RenderEnv) (m : MediaRecord) : String :=
  (if m.file_size ≠ 0 then renv.format_file_size m.file_size else "Unknown size")
    ++ (if m.caption ≠ "" then
          " • " ++ (if pyLen m.caption > 100 then pyTake 100 m.caption ++ "..." else m.caption)
        else "")

/-- `title = f"{emoji} {display_name}"`. -/
def mediaTitle (renv : RenderEnv) (m : MediaRecord) : String :=
  renv.emoji (effType m) ++ " " ++ displayName m

/-- The discriminated union of protocol result objects the handler builds.
The two-button keyboard attached to video results is pure data and is
recorded as a flag. -/
inductive InlineResult where
  | article (id title description message : String)
  | cachedVideo (id video_file_id title description caption : String) (hasKeyboard : Bool)
  | cachedDocument (id title description document_file_id : String)
  | cachedAudio (id audio_file_id : String)
  | cachedPhoto (id photo_file_id : String)
  | cachedAnimation (id animation_file_id title : String)
deriving DecidableEq

/-- The description carried by a result (empty for the minimal kinds). -/
def resultDescription : InlineResult → String
  | .article _ _ d _ => d
  | .cachedVideo _ _ _ d _ _ => d
  | .cachedDocument _ _ d _ => d
  | .cachedAudio _ _ => ""
  | .cachedPhoto _ _ => ""
  | .cachedAnimation _ _ _ => ""

/-- The id carried by a result. -/
def resultId : InlineResult → String
  | .article i _ _ _ => i
  | .cachedVideo i _ _ _ _ _ => i
  | .cachedDocument i _ _ _ => i
  | .cachedAudio i _ => i
  | .cachedPhoto i _ => i
  | .cachedAnimation i _ _ => i

/-- `create_inline_result(media, index)` of `Plugins/inline.py`: validates
`file_id`, derives display name / description / title, dispatches on the
effective file type, and converts every constructor exception into `none`
— except that a failing cached-video construction first falls back to a
cached-document result with id `doc_fallback_{index}`. -/
def create_inline_result (renv : RenderEnv) (media : MediaRecord) (index : Nat) :
    Option InlineResult :=
  match truthy media.file_id with
  | none => none
  | some fid =>
    let ft := effType media
    let file_name := media.file_name.getD "Unknown"
    let dn := displayName media
    let description := mediaDescription renv media
    let title := mediaTitle renv media
    if ft = "video" then
      if renv.exc.video media index then
        if renv.exc.docFallback media index then none
        else some (.cachedDocument ("doc_fallback_" ++ toString index)
                     ("📄 " ++ dn) description fid)
      else some (.cachedVideo ("video_" ++ toString index) fid title description
                   (file_name ++ "\n\nKUSO BIIT @DAAWOTV") true)
    else if ft = "document" then
      if renv.exc.document media index then none
      else some (.cachedDocument ("doc_" ++ toString index) title description fid)
    else if ft = "audio" then
      if renv.exc.audio media index then none
      else some (.cachedAudio ("audio_" ++ toString index) fid)
    else if ft = "photo" then
      if renv.exc.photo media index then none
      else some (.cachedPhoto ("photo_" ++ toString index) fid)
    else if ft = "gif" then
      if renv.exc.gif media index then none
      else some (.cachedAnimation ("gif_" ++ toString index) fid title)
    else
      if renv.exc.other media index then none
      else some (.cachedDocument ("file_" ++ toString index) title description fid)

/-- Whether the construction chain of `create_inline_result` ends in an
uncaught-then-swallowed exception (an absent result) for a record whose
`file_id` is present: for video both the video constructor and the document
fallback must raise; for every other type the single constructor must. -/
def raisesFor (renv : RenderEnv) (m : MediaRecord) (i : Nat) : Bool :=
  let ft := effType m
  if ft = "video" then renv.exc.video m i && renv.exc.docFallback m i
  else if ft = "document" then renv.exc.document m i
  else if ft = "audio" then renv.exc.audio m i
  else if ft = "photo" then renv.exc.photo m i
  else if ft = "gif" then renv.exc.gif m i
  else renv.exc.other m i

/-- The rendering loops of the handler: `for idx, media in enumerate(...)`
calling `create_inline_result` and keeping the non-`None` results.  (The
browse loop also wraps each call in `try/except`; the translated
`create_inline_result` is total, so both loops are this `filterMap`.) -/
def renderResults (renv : RenderEnv) (records : List MediaRecord) : List InlineResult :=
  records.enum.filterMap fun p => create_inline_result renv p.2 p.1

/-! ## Handler environment and response -/

/-- `config.Config` values used by the handler; the `config` module is not
in the sources, so the two integers named by the spec are parameters. -/
structure Config where
  CACHE_TIME : Nat
  MAX_RESULTS : Nat

/-- The collaborator environment of one inline query, per the interface in
the spec: subscription and allow-list state of the requester, the bot
username, the database retrieval outcomes (an `Except` models a raised
error), the rendering environment and the configuration. -/
structure Env where
  subscribed : Bool
  authorized : Bool
  username : String
  db_recent_raw : Except Unit (List MediaRecord)
  db_search : String → Option String → Except Unit (List MediaRecord)
  render : RenderEnv
  cfg : Config

/-- Modelled from the spec: `get_recent_media(limit) -> sequence of
MediaRecord` — `client.db.get_recent_videos` is not in the sources; per the
spec it returns the `limit` most recent records, modelled by truncating an
arbitrary underlying sequence to at most `limit` elements. -/
def get_recent_videos (env : Env) (limit : Nat) : Except Unit (List MediaRecord) :=
  env.db_recent_raw.map fun l => l.take limit

/-- The answer sent back to the platform: the result list, `cache_time`,
`is_personal`, and `next_offset` (empty when the answering call omits it). -/
structure Response where
  results : List InlineResult
  cache_time : Nat
  is_personal : Bool
  next_offset : String
deriving DecidableEq

/-- The static single result answered on a failed subscription check. -/
def auth_required_result (username : String) : InlineResult :=
  .article "auth_required" "🔒 Authorization Required" "Join our channel to use this bot"
    ("🔒 You need to join our channel to use this bot.\nStart the bot @"
      ++ username ++ " for more information.")

/-- The static single result answered on a failed authorization check. -/
def unauthorized_result : InlineResult :=
  .article "unauthorized" "❌ Unauthorized Access" "Contact admin for access"
    "❌ You are not authorized to use this bot.\nContact an administrator for access."

/-- The informational placeholder for browse mode with no renderable result. -/
def no_videos_result : InlineResult :=
  .article "no_videos" "🎬 No Recent Videos" "Upload videos to channels to see them here"
    ("🎬 <b>No recent videos found</b>\n\nRecent videos will appear here when you upload them.\n"
      ++ "Type a search term to find specific content.")

/-- The static single result answered when browse-mode retrieval raises. -/
def browse_error_result : InlineResult :=
  .article "error_fallback" "🔍 Search Your Media" "Type to search your media collection"
    "🔍 <b>Search your media</b>\n\nType your search query to find specific content."

/-- The placeholder answered when a search returns no record; its
description and message embed the literal search term. -/
def no_results_result (term : String) : InlineResult :=
  .article "no_results" "🔍 Not Found"
    ("No results for " ++ quoteS ++ term ++ quoteS)
    ("🔍 <b>Not Found</b>\n\nNo videos found for: <code>" ++ term ++ "</code>")

/-- The static single result answered when search-mode handling raises. -/
def search_error_result : InlineResult :=
  .article "error" "❌ Search Error" "An error occurred while searching"
    "❌ <b>Search Error</b>\n\nPlease try again later."

/-- Lines 108–112 of `Plugins/inline.py`: when `" | "` occurs in the
(already stripped) query, split at its first occurrence; the left part
(stripped) is the term, the right part (stripped, lower-cased) the type
filter.  The `none` arm of the inner match is unreachable: the split
succeeds whenever the containment test does. -/
def parseTypeFilter (search_query : String) : String × Option String :=
  if pyContains " | " search_query then
    match pySplitOnce " | " search_query with
    | some (l, r) => (pyStrip l, some (pyLower (pyStrip r)))
    | none => (search_query, none)
  else (search_query, none)

/-- The full query parse: line 23 strips the raw text; an empty result is
browse mode (empty term, no filter); otherwise the filter split applies. -/
def parse_inline_query (raw : String) : String × Option String :=
  let sq := pyStrip raw
  if sq = "" then (sq, none) else parseTypeFilter sq

/-- `inline_query_handler` of `Plugins/inline.py`: subscription gate, then
authorization gate, then browse mode (empty stripped query) or search mode,
each converting retrieval errors into a static single-result answer. -/
def inline_query_handler (env : Env) (raw_query : String) : Response :=
  let search_query := pyStrip raw_query
  if env.subscribed = false then
    { results := [auth_required_result env.username], cache_time := 0,
      is_personal := true, next_offset := "" }
  else if env.authorized = false then
    { results := [unauthorized_result], cache_time := 0,
      is_personal := true, next_offset := "" }
  else if search_query = "" then
    match get_recent_videos env 10 with
    | Except.error _ =>
      { results := [browse_error_result], cache_time := 5,
        is_personal := true, next_offset := "" }
    | Except.ok recent_media =>
      let rendered := renderResults env.render recent_media
      let results := if rendered = [] then [no_videos_result] else rendered
      { results := results, cache_time := 5, is_personal := true, next_offset := "" }
  else
    let p := parseTypeFilter search_query
    match env.db_search p.1 p.2 with
    | Except.error _ =>
      { results := [search_error_result], cache_time := 0,
        is_personal := true, next_offset := "" }
    | Except.ok media_results =>
      let results :=
        if media_results = [] then [no_results_result p.1]
        else renderResults env.render media_results
      { results := results.take 50,
        cache_time := env.cfg.CACHE_TIME,
        is_personal := true,
        next_offset :=
          if media_results.length ≥ env.cfg.MAX_RESULTS then toString results.length else "" }

/-! ## Concrete instances for witnesses and counterexamples -/

/-- Oracle under which no constructor raises. -/
def noRaise : ExcOracle :=
  ⟨fun _ _ => false, fun _ _ => false, fun _ _ => false, fun _ _ => false,
   fun _ _ => false, fun _ _ => false, fun _ _ => false⟩

/-- Oracle under which the cached-video constructor raises and everything
else (the document fallback included) succeeds. -/
def videoRaises : ExcOracle :=
  ⟨fun _ _ => true, fun _ _ => false, fun _ _ => false, fun _ _ => false,
   fun _ _ => false, fun _ _ => false, fun _ _ => false⟩

/-- Oracle under which both the cached-video constructor and the
cached-document fallback raise. -/
def bothRaise : ExcOracle :=
  ⟨fun _ _ => true, fun _ _ => true, fun _ _ => false, fun _ _ => false,
   fun _ _ => false, fun _ _ => false, fun _ _ => false⟩

/-- Oracle under which the plain cached-document constructor raises. -/
def documentRaises : ExcOracle :=
  ⟨fun _ _ => false, fun _ _ => false, fun _ _ => true, fun _ _ => false,
   fun _ _ => false, fun _ _ => false, fun _ _ => false⟩

/-- A rendering environment with concrete helper functions. -/
def mkRenv (exc : ExcOracle) : RenderEnv :=
  { exc := exc, format_file_size := fun n => toString n ++ " B", emoji := fun _ => "📄" }

/-- A valid document record. -/
def goodRec : MediaRecord :=
  { file_type := some "document", file_name := some "A", file_size := 1,
    caption := "", file_id := some "fidA" }

/-- A record with a missing `file_id` (the dict has no such key). -/
def badRec : MediaRecord :=
  { file_type := some "document", file_name := some "B", file_size := 1,
    caption := "", file_id := none }

/-- A valid video record. -/
def vidRec : MediaRecord :=
  { file_type := some "video", file_name := some "V", file_size := 2,
    caption := "", file_id := some "fidV" }

/-- An environment builder: gates pass, fixed username. -/
def mkEnv (cfg : Config) (recent : Except Unit (List MediaRecord))
    (search : String → Option String → Except Unit (List MediaRecord))
    (exc : ExcOracle) : Env :=
  { subscribed := true, authorized := true, username := "bot",
    db_recent_raw := recent, db_search := search, render := mkRenv exc, cfg := cfg }

/-- Environment for the C1 counterexample: the source returns two records,
one of which is dropped for a missing `file_id`; `MAX_RESULTS = 1`. -/
def envC1 : Env :=
  mkEnv ⟨20, 1⟩ (Except.ok []) (fun _ _ => Except.ok [goodRec, badRec]) noRaise

/-- Environment for the C1 witness: one valid record, `MAX_RESULTS = 1`. -/
def envC1W : Env :=
  mkEnv ⟨20, 1⟩ (Except.ok []) (fun _ _ => Except.ok [goodRec]) noRaise

/-- Environment for the C2 counterexample: browse-mode retrieval raises. -/
def envC2 : Env :=
  mkEnv ⟨20, 50⟩ (Except.error ()) (fun _ _ => Except.ok []) noRaise

/-- Environment for the C2 witness: both retrieval calls raise. -/
def envC2W : Env :=
  mkEnv ⟨20, 50⟩ (Except.error ()) (fun _ _ => Except.error ()) noRaise

/-- Environment for the C3 counterexample: the search returns one record
whose `file_id` is missing, so every record is dropped. -/
def envC3 : Env :=
  mkEnv ⟨20, 50⟩ (Except.ok []) (fun _ _ => Except.ok [badRec]) noRaise

/-- Environment for the C3 witness: the search returns no record. -/
def envC3W : Env :=
  mkEnv ⟨20, 50⟩ (Except.ok []) (fun _ _ => Except.ok []) noRaise

/-- Environment for the C4 witness: a search returns a good record, a
document record whose constructor raises, and another good record. -/
def envC4W : Env :=
  mkEnv ⟨20, 50⟩ (Except.ok []) (fun _ _ => Except.ok [goodRec, goodRec, goodRec])
    documentRaises

/-- Environment for the C7 witness: the requester fails the subscription
check. -/
def envC7W : Env :=
  { subscribed := false, authorized := true, username := "bot",
    db_recent_raw := Except.ok [], db_search := fun _ _ => Except.ok [],
    render := mkRenv noRaise, cfg := ⟨20, 50⟩ }

/-- Environment for the C9 witness: browse mode with an empty source. -/
def envC9W : Env :=
  mkEnv ⟨20, 50⟩ (Except.ok []) (fun _ _ => Except.ok []) noRaise

/-! ## Helper lemmas -/

theorem isPrefOf_append {p x : List Char} (y : List Char) (h : isPrefOf p x = true) :
    isPrefOf p (x ++ y) = true := by
  induction p generalizing x with
  | nil => rfl
  | cons a as ih =>
    cases x with
    | nil => simp [isPrefOf] at h
    | cons b bs =>
      simp only [isPrefOf, Bool.and_eq_true] at h ⊢
      exact ⟨h.1, ih h.2⟩

theorem isPrefOf_eq_append {p s : List Char} (h : isPrefOf p s = true) :
    s = p ++ s.drop p.length := by
  induction p generalizing s with
  | nil => simp
  | cons a as ih =>
    cases s with
    | nil => simp [isPrefOf] at h
    | cons b bs =>
      simp only [isPrefOf, Bool.and_eq_true, beq_iff_eq] at h
      simp only [List.cons_append, List.length_cons, List.drop_succ_cons]
      exact h.1 ▸ congrArg (b :: ·) (ih h.2)

theorem splitFirst_sound {sep : List Char} (hsep : sep ≠ []) :
    ∀ {s a b : List Char}, splitFirst sep s = some (a, b) →
      s = a ++ sep ++ b ∧ occursIn sep a = false := by
  intro s
  induction s with
  | nil => intro a b h; simp [splitFirst] at h
  | cons c rest ih =>
    intro a b h
    by_cases hp : isPrefOf sep (c :: rest) = true
    · simp only [splitFirst, hp, if_pos] at h
      obtain ⟨ha, hb⟩ := Prod.mk.injEq .. ▸ Option.some.injEq .. ▸ h
      subst ha; subst hb
      refine ⟨by simpa using isPrefOf_eq_append hp, ?_⟩
      cases sep with
      | nil => exact absurd rfl hsep
      | cons x xs => rfl
    · simp only [splitFirst, hp, if_neg, Bool.not_eq_true] at h
      cases hrec : splitFirst sep rest with
      | none => rw [hrec] at h; exact absurd h (by simp)
      | some p =>
        rw [hrec] at h
        obtain ⟨a', b'⟩ := p
        simp only [Option.some.injEq, Prod.mk.injEq] at h
        obtain ⟨ha, hb⟩ := h
        obtain ⟨hres, hocc⟩ := ih hrec
        subst ha; subst hb
        constructor
        · simp [hres]
        · simp only [occursIn, Bool.or_eq_false_iff]
          refine ⟨?_, hocc⟩
          cases hq : isPrefOf sep (c :: a') with
          | false => rfl
          | true =>
            exfalso
            apply hp
            have h2 : isPrefOf sep ((c :: a') ++ (sep ++ b')) = true :=
              isPrefOf_append (sep ++ b') hq
            have h3 : (c :: a') ++ (sep ++ b') = c :: rest := by
              simp [hres, List.append_assoc]
            rwa [h3] at h2

theorem splitFirst_isSome_of_occursIn {sep : List Char} (hsep : sep ≠ []) :
    ∀ {s : List Char}, occursIn sep s = true → (splitFirst sep s).isSome = true := by
  intro s
  induction s with
  | nil =>
    intro h
    cases sep with
    | nil => exact absurd rfl hsep
    | cons x xs => simp [occursIn, isPrefOf] at h
  | cons c rest ih =>
    intro h
    by_cases hp : isPrefOf sep (c :: rest) = true
    · simp [splitFirst, hp]
    · simp only [occursIn, Bool.or_eq_true] at h
      rcases h with h | h
      · exact absurd h hp
      · have := ih h
        simp only [splitFirst, hp, if_neg, Bool.not_eq_true]
        cases hrec : splitFirst sep rest with
        | none => rw [hrec] at this; simp at this
        | some p => obtain ⟨a, b⟩ := p; simp

theorem splitFirst_eq_none_of_occursIn_false {sep : List Char} :
    ∀ {s : List Char}, occursIn sep s = false → splitFirst sep s = none := by
  intro s
  induction s with
  | nil => intro _; rfl
  | cons c rest ih =>
    intro h
    simp only [occursIn, Bool.or_eq_false_iff] at h
    simp only [splitFirst, h.1, Bool.false_eq_true, if_false, ih h.2]

theorem filterMap_eraseIdx {α β : Type} (f : α → Option β) :
    ∀ (xs : List α) (i : Nat) (h : i < xs.length), f (xs.get ⟨i, h⟩) = none →
      xs.filterMap f = (xs.eraseIdx i).filterMap f := by
  intro xs
  induction xs with
  | nil => intro i h; simp at h
  | cons x rest ih =>
    intro i h hf
    cases i with
    | zero =>
      simp only [List.get] at hf
      simp [List.eraseIdx, List.filterMap_cons, hf]
    | succ n =>
      have hn : n < rest.length := Nat.lt_of_succ_lt_succ h
      simp only [List.get] at hf
      have := ih n hn hf
      simp only [List.eraseIdx, List.filterMap_cons]
      cases f x <;> simp [this]

theorem renderResults_skip (renv : RenderEnv) (l : List MediaRecord) (i : Nat)
    (hi : i < l.length) (h : create_inline_result renv (l.get ⟨i, hi⟩) i = none) :
    renderResults renv l =
      (l.enum.eraseIdx i).filterMap fun p => create_inline_result renv p.2 p.1 := by
  have hlen : i < l.enum.length := by simpa [List.enum_length] using hi
  have hget : l.enum.get ⟨i, hlen⟩ = (i, l.get ⟨i, hi⟩) := List.getElem_enum l i hlen
  refine filterMap_eraseIdx _ l.enum i hlen ?_
  rw [hget]
  exact h

theorem renderResults_length_le (renv : RenderEnv) (l : List MediaRecord) :
    (renderResults renv l).length ≤ l.length := by
  calc (renderResults renv l).length ≤ l.enum.length :=
        List.length_filterMap_le _ _
    _ = l.length := List.enum_length

theorem handler_sub_failed (env : Env) (raw : String) (h : env.subscribed = false) :
    inline_query_handler env raw =
      { results := [auth_required_result env.username], cache_time := 0,
        is_personal := true, next_offset := "" } := by
  simp [inline_query_handler, h]

theorem handler_auth_failed (env : Env) (raw : String) (hs : env.subscribed = true)
    (ha : env.authorized = false) :
    inline_query_handler env raw =
      { results := [unauthorized_result], cache_time := 0,
        is_personal := true, next_offset := "" } := by
  simp [inline_query_handler, hs, ha]

theorem handler_browse_err (env : Env) (raw : String) (hs : env.subscribed = true)
    (ha : env.authorized = true) (hq : pyStrip raw = "")
    (hdb : env.db_recent_raw = Except.error ()) :
    inline_query_handler env raw =
      { results := [browse_error_result], cache_time := 5,
        is_personal := true, next_offset := "" } := by
  simp [inline_query_handler, hs, ha, hq, get_recent_videos, hdb, Except.map]

theorem handler_browse_ok (env : Env) (raw : String) (l : List MediaRecord)
    (hs : env.subscribed = true) (ha : env.authorized = true) (hq : pyStrip raw = "")
    (hdb : env.db_recent_raw = Except.ok l) :
    inline_query_handler env raw =
      { results :=
          if renderResults env.render (l.take 10) = [] then [no_videos_result]
          else renderResults env.render (l.take 10),
        cache_time := 5, is_personal := true, next_offset := "" } := by
  simp only [inline_query_handler, hs, ha, hq, get_recent_videos, hdb, Except.map]
  rfl

theorem handler_search_err (env : Env) (raw : String) (hs : env.subscribed = true)
    (ha : env.authorized = true) (hq : pyStrip raw ≠ "")
    (hdb : env.db_search (parseTypeFilter (pyStrip raw)).1
             (parseTypeFilter (pyStrip raw)).2 = Except.error ()) :
    inline_query_handler env raw =
      { results := [search_error_result], cache_time := 0,
        is_personal := true, next_offset := "" } := by
  simp [inline_query_handler, hs, ha, hq, hdb]

theorem handler_search_empty (env : Env) (raw : String) (hs : env.subscribed = true)
    (ha : env.authorized = true) (hq : pyStrip raw ≠ "")
    (hdb : env.db_search (parseTypeFilter (pyStrip raw)).1
             (parseTypeFilter (pyStrip raw)).2 = Except.ok []) :
    inline_query_handler env raw =
      { results := [no_results_result (parseTypeFilter (pyStrip raw)).1],
        cache_time := env.cfg.CACHE_TIME, is_personal := true,
        next_offset := if 0 ≥ env.cfg.MAX_RESULTS then toString (1 : Nat) else "" } := by
  simp [inline_query_handler, hs, ha, hq, hdb]

theorem handler_search_ok (env : Env) (raw : String) (l : List MediaRecord)
    (hs : env.subscribed = true) (ha : env.authorized = true) (hq : pyStrip raw ≠ "")
    (hdb : env.db_search (parseTypeFilter (pyStrip raw)).1
             (parseTypeFilter (pyStrip raw)).2 = Except.ok l) (hne : l ≠ []) :
    inline_query_handler env raw =
      { results := (renderResults env.render l).take 50,
        cache_time := env.cfg.CACHE_TIME, is_personal := true,
        next_offset :=
          if l.length ≥ env.cfg.MAX_RESULTS
          then toString (renderResults env.render l).length else "" } := by
  simp [inline_query_handler, hs, ha, hq, hdb, hne]

theorem create_eq_none_of_raisesFor (renv : RenderEnv) (m : MediaRecord) (i : Nat)
    (fid : String) (hfid : truthy m.file_id = some fid)
    (h : raisesFor renv m i = true) : create_inline_result renv m i = none := by
  by_cases h1 : effType m = "video"
  · have hboth : renv.exc.video m i = true ∧ renv.exc.docFallback m i = true := by
      simpa [raisesFor, h1] using h
    simp [create_inline_result, hfid, h1, hboth.1, hboth.2]
  · by_cases h2 : effType m = "document"
    · have hx : renv.exc.document m i = true := by simpa [raisesFor, h1, h2] using h
      simp [create_inline_result, hfid, h1, h2, hx]
    · by_cases h3 : effType m = "audio"
      · have hx : renv.exc.audio m i = true := by simpa [raisesFor, h1, h2, h3] using h
        simp [create_inline_result, hfid, h1, h2, h3, hx]
      · by_cases h4 : effType m = "photo"
        · have hx : renv.exc.photo m i = true := by
            simpa [raisesFor, h1, h2, h3, h4] using h
          simp [create_inline_result, hfid, h1, h2, h3, h4, hx]
        · by_cases h5 : effType m = "gif"
          · have hx : renv.exc.gif m i = true := by
              simpa [raisesFor, h1, h2, h3, h4, h5] using h
            simp [create_inline_result, hfid, h1, h2, h3, h4, h5, hx]
          · have hx : renv.exc.other m i = true := by
              simpa [raisesFor, h1, h2, h3, h4, h5] using h
            simp [create_inline_result, hfid, h1, h2, h3, h4, h5, hx]

/-- Claim C6: after stripping surrounding whitespace, an empty input parses
to an empty term with no type filter; when the literal separator `" | "`
occurs, the input splits at its first occurrence only, the left part
(stripped) becoming the term and the right part (stripped, lower-cased) the
filter; without the separator the whole stripped input is the term with no
filter.  In particular `"cat | video"` parses to `("cat", "video")`,
`"a | b | c"` to `("a", "b | c")` and `"  "` to an empty term with no
filter. -/
theorem c6_query_parsing :
    (∀ raw : String, pyStrip raw = "" → parse_inline_query raw = ("", none))
    ∧ (∀ raw : String, occursIn sepChars (pyStrip raw).data = false →
        parse_inline_query raw = (pyStrip raw, none))
    ∧ (∀ raw : String, pyStrip raw ≠ "" → occursIn sepChars (pyStrip raw).data = true →
        ∃ pre post : List Char,
          (pyStrip raw).data = pre ++ sepChars ++ post ∧
          occursIn sepChars pre = false ∧
          parse_inline_query raw =
            (pyStrip (String.mk pre), some (pyLower (pyStrip (String.mk post)))))
    ∧ parse_inline_query "cat | video" = ("cat", some "video")
    ∧ parse_inline_query "a | b | c" = ("a", some "b | c")
    ∧ parse_inline_query "  " = ("", none) := by
  have hsep : (" | ").data ≠ [] := by decide
  refine ⟨?_, ?_, ?_, by decide, by decide, by decide⟩
  · intro raw h
    simp [parse_inline_query, h]
  · intro raw h
    have h' : occursIn (" | ").data (pyStrip raw).data = false := h
    by_cases hsq : pyStrip raw = ""
    · simp [parse_inline_query, hsq]
    · simp [parse_inline_query, hsq, parseTypeFilter, pyContains, h']
  · intro raw h1 h2
    have h2' : occursIn (" | ").data (pyStrip raw).data = true := h2
    have hsome := splitFirst_isSome_of_occursIn hsep h2'
    cases hsplit : splitFirst (" | ").data (pyStrip raw).data with
    | none => rw [hsplit] at hsome; simp at hsome
    | some p =>
      obtain ⟨a, b⟩ := p
      obtain ⟨hdec, hocc⟩ := splitFirst_sound hsep hsplit
      refine ⟨a, b, hdec, hocc, ?_⟩
      simp [parse_inline_query, h1, parseTypeFilter, pyContains, h2', pySplitOnce, hsplit]

/-- Claim C6 witness: a separator-free query parses to itself with no
filter. -/
theorem c6_query_parsing_witness : parse_inline_query "hello" = (pyStrip "hello", none) :=
  c6_query_parsing.2.1 "hello" (by decide)

/-- Claim C7: the subscription check comes before the authorization check
and short-circuits it — on a failed subscription the answer does not depend
on the authorization state — and every requester failing subscription gets
exactly one static result with cache duration 0 and the personal flag set,
regardless of the query. -/
theorem c7_subscription_first (env : Env) (raw : String) (b : Bool)
    (h : env.subscribed = false) :
    inline_query_handler env raw = inline_query_handler { env with authorized := b } raw
    ∧ (inline_query_handler env raw).results = [auth_required_result env.username]
    ∧ (inline_query_handler env raw).cache_time = 0
    ∧ (inline_query_handler env raw).is_personal = true := by
  have h1 := handler_sub_failed env raw h
  have h2 := handler_sub_failed { env with authorized := b } raw h
  exact ⟨h1.trans h2.symm, by rw [h1], by rw [h1], by rw [h1]⟩

/-- Claim C7 witness at a concrete unsubscribed environment and query. -/
theorem c7_subscription_first_witness :
    inline_query_handler envC7W "cat | video"
      = inline_query_handler { envC7W with authorized := false } "cat | video"
    ∧ (inline_query_handler envC7W "cat | video").results
        = [auth_required_result envC7W.username]
    ∧ (inline_query_handler envC7W "cat | video").cache_time = 0
    ∧ (inline_query_handler envC7W "cat | video").is_personal = true :=
  c7_subscription_first envC7W "cat | video" false rfl

/-- Claim C8: a record whose `file_id` is missing renders to nothing, and
the page equals the rendering of the remaining indexed records — the
dropped record is not substituted and no other record's rendering is
affected. -/
theorem c8_missing_file_id_dropped (renv : RenderEnv) (l : List MediaRecord) (i : Nat)
    (hi : i < l.length) (h : truthy (l.get ⟨i, hi⟩).file_id = none) :
    create_inline_result renv (l.get ⟨i, hi⟩) i = none
    ∧ renderResults renv l =
        (l.enum.eraseIdx i).filterMap fun p => create_inline_result renv p.2 p.1 := by
  have hc : create_inline_result renv (l.get ⟨i, hi⟩) i = none := by
    unfold create_inline_result
    rw [h]
  exact ⟨hc, renderResults_skip renv l i hi hc⟩

/-- Claim C8 witness: dropping the middle record of a three-record list. -/
theorem c8_missing_file_id_dropped_witness :
    create_inline_result (mkRenv noRaise) ([goodRec, badRec, goodRec].get ⟨1, by decide⟩) 1
        = none
    ∧ renderResults (mkRenv noRaise) [goodRec, badRec, goodRec] =
        (([goodRec, badRec, goodRec].enum.eraseIdx 1).filterMap
          fun p => create_inline_result (mkRenv noRaise) p.2 p.1) :=
  c8_missing_file_id_dropped (mkRenv noRaise) [goodRec, badRec, goodRec] 1 (by decide)
    (by decide)

/-- Claim C9: the answered page never holds more than 50 results; with an
empty (stripped) query it never holds more than 10, and an empty browse
source yields exactly the one informational placeholder. -/
theorem c9_page_size_bounds (env : Env) (raw : String) :
    (inline_query_handler env raw).results.length ≤ 50
    ∧ (pyStrip raw = "" → (inline_query_handler env raw).results.length ≤ 10)
    ∧ (pyStrip raw = "" → env.subscribed = true → env.authorized = true →
        env.db_recent_raw = Except.ok [] →
        (inline_query_handler env raw).results = [no_videos_result]) := by
  cases hs : env.subscribed with
  | false =>
    rw [handler_sub_failed env raw hs]
    exact ⟨by simp, fun _ => by simp, fun _ hsub _ _ => Bool.noConfusion hsub⟩
  | true =>
    cases ha : env.authorized with
    | false =>
      rw [handler_auth_failed env raw hs ha]
      exact ⟨by simp, fun _ => by simp, fun _ _ hauth _ => Bool.noConfusion hauth⟩
    | true =>
      by_cases hq : pyStrip raw = ""
      · cases hdb : env.db_recent_raw with
        | error e =>
          cases e
          rw [handler_browse_err env raw hs ha hq hdb]
          exact ⟨by simp, fun _ => by simp, fun _ _ _ hok => Except.noConfusion hok⟩
        | ok l =>
          rw [handler_browse_ok env raw l hs ha hq hdb]
          have hb : (renderResults env.render (l.take 10)).length ≤ 10 := by
            calc (renderResults env.render (l.take 10)).length
                ≤ (l.take 10).length := renderResults_length_le _ _
              _ ≤ 10 := by simp [List.length_take]
          have hcases :
              (if renderResults env.render (l.take 10) = [] then [no_videos_result]
                else renderResults env.render (l.take 10)).length ≤ 10 := by
            by_cases hr : renderResults env.render (l.take 10) = []
            · simp [hr]
            · simpa [hr] using hb
          refine ⟨le_trans hcases (by omega), fun _ => hcases, fun _ _ _ hok => ?_⟩
          have hl : l = [] := Except.ok.inj hok
          subst hl
          simp [renderResults]
      · cases hdb : env.db_search (parseTypeFilter (pyStrip raw)).1
            (parseTypeFilter (pyStrip raw)).2 with
        | error e =>
          cases e
          rw [handler_search_err env raw hs ha hq hdb]
          exact ⟨by simp, fun hq2 => absurd hq2 hq, fun hq2 _ _ _ => absurd hq2 hq⟩
        | ok l =>
          by_cases hne : l = []
          · subst hne
            rw [handler_search_empty env raw hs ha hq hdb]
            exact ⟨by simp, fun hq2 => absurd hq2 hq, fun hq2 _ _ _ => absurd hq2 hq⟩
          · rw [handler_search_ok env raw l hs ha hq hdb hne]
            refine ⟨?_, fun hq2 => absurd hq2 hq, fun hq2 _ _ _ => absurd hq2 hq⟩
            simp [List.length_take]

/-- Claim C9 witness: an empty browse source answers exactly the
placeholder. -/
theorem c9_page_size_bounds_witness :
    (inline_query_handler envC9W "").results = [no_videos_result] :=
  (c9_page_size_bounds envC9W "").2.2 (by decide) rfl rfl rfl

/-- Claim C10: for a video record whose cached-video construction raises
and whose cached-document fallback construction also raises, the renderer
returns no result at all — the fallback does not guarantee an output for
every video record carrying a `file_id`. -/
theorem c10_fallback_not_guaranteed (renv : RenderEnv) (m : MediaRecord) (i : Nat)
    (fid : String) (hfid : truthy m.file_id = some fid) (ht : effType m = "video")
    (hv : renv.exc.video m i = true) (hd : renv.exc.docFallback m i = true) :
    create_inline_result renv m i = none := by
  simp [create_inline_result, hfid, ht, hv, hd]

/-- Claim C10 witness: a concrete video record under the double-failure
oracle renders to nothing. -/
theorem c10_fallback_not_guaranteed_witness :
    create_inline_result (mkRenv bothRaise) vidRec 0 = none :=
  c10_fallback_not_guaranteed (mkRenv bothRaise) vidRec 0 "fidV" rfl (by decide) rfl rfl

/-- Claim C1 counterexample: with two source records of which one is
dropped for a missing `file_id` and `MAX_RESULTS = 1`, the source count (2)
reaches the threshold but the continuation token is `"1"` — the count of
rendered results — not `"2"`, the count of source records the claim
demands. -/
theorem c1_counterexample :
    envC1.db_search "x" none = Except.ok [goodRec, badRec]
    ∧ envC1.cfg.MAX_RESULTS = 1
    ∧ (inline_query_handler envC1 "x").next_offset = "1"
    ∧ (inline_query_handler envC1 "x").next_offset ≠ toString [goodRec, badRec].length := by
  exact ⟨rfl, rfl, by decide, by decide⟩

/-- Claim C1 (amended): in search mode with at least one source record, the
continuation token equals the count of *valid rendered* results (before
page truncation) as a string whenever the source count is at least
`MAX_RESULTS`, and the empty string otherwise. -/
theorem c1_amended (env : Env) (raw : String) (l : List MediaRecord)
    (hs : env.subscribed = true) (ha : env.authorized = true) (hq : pyStrip raw ≠ "")
    (hdb : env.db_search (parseTypeFilter (pyStrip raw)).1
             (parseTypeFilter (pyStrip raw)).2 = Except.ok l) (hne : l ≠ []) :
    (l.length ≥ env.cfg.MAX_RESULTS →
      (inline_query_handler env raw).next_offset =
        toString (renderResults env.render l).length)
    ∧ (l.length < env.cfg.MAX_RESULTS → (inline_query_handler env raw).next_offset = "") := by
  rw [handler_search_ok env raw l hs ha hq hdb hne]
  constructor
  · intro h
    simp [h]
  · intro h
    simp [Nat.not_le.mpr h]

/-- Claim C1 (amended) witness: one valid record with `MAX_RESULTS = 1`
yields the rendered count as the token. -/
theorem c1_amended_witness :
    (inline_query_handler envC1W "x").next_offset =
      toString (renderResults envC1W.render [goodRec]).length :=
  (c1_amended envC1W "x" [goodRec] rfl rfl (by decide) rfl (by decide)).1 (by decide)

/-- Claim C2 counterexample: when browse-mode retrieval raises, the handler
answers one static result but with cache duration 5, not the 0 the claim
demands. -/
theorem c2_counterexample :
    envC2.db_recent_raw = Except.error ()
    ∧ (inline_query_handler envC2 "").results = [browse_error_result]
    ∧ (inline_query_handler envC2 "").cache_time = 5
    ∧ (inline_query_handler envC2 "").cache_time ≠ 0 := by
  exact ⟨rfl, by decide, by decide, by decide⟩

/-- Claim C2 (amended): a retrieval error is converted into exactly one
static result and not propagated; the cache duration is 5 for a browse-mode
failure and 0 for a search-mode failure. -/
theorem c2_amended (env : Env) (raw : String) (hs : env.subscribed = true)
    (ha : env.authorized = true) :
    (pyStrip raw = "" → env.db_recent_raw = Except.error () →
      (inline_query_handler env raw).results = [browse_error_result]
      ∧ (inline_query_handler env raw).cache_time = 5)
    ∧ (pyStrip raw ≠ "" →
        env.db_search (parseTypeFilter (pyStrip raw)).1 (parseTypeFilter (pyStrip raw)).2
          = Except.error () →
      (inline_query_handler env raw).results = [search_error_result]
      ∧ (inline_query_handler env raw).cache_time = 0) := by
  constructor
  · intro hq hdb
    rw [handler_browse_err env raw hs ha hq hdb]
    exact ⟨rfl, rfl⟩
  · intro hq hdb
    rw [handler_search_err env raw hs ha hq hdb]
    exact ⟨rfl, rfl⟩

/-- Claim C2 (amended) witness: concrete browse-mode failure. -/
theorem c2_amended_witness :
    (inline_query_handler envC2W "").results = [browse_error_result]
    ∧ (inline_query_handler envC2W "").cache_time = 5 :=
  (c2_amended envC2W "" rfl rfl).1 (by decide) rfl

/-- Claim C3 counterexample: a search whose source returns one record that
is dropped for a missing `file_id` answers an *empty* result list, not the
single placeholder the claim demands. -/
theorem c3_counterexample :
    envC3.db_search "x" none = Except.ok [badRec]
    ∧ [badRec] ≠ ([] : List MediaRecord)
    ∧ (inline_query_handler envC3 "x").results = [] := by
  exact ⟨rfl, by decide, by decide⟩

/-- Claim C3 (amended): in browse mode, zero valid results after rendering
(source empty or every record dropped) yields exactly one informational
placeholder; in search mode the placeholder — whose description embeds the
literal search term — appears exactly when the source returns zero records,
while a non-empty source whose records are all dropped yields an empty
result list. -/
theorem c3_amended (env : Env) (raw : String) (hs : env.subscribed = true)
    (ha : env.authorized = true) :
    (pyStrip raw = "" → ∀ l, env.db_recent_raw = Except.ok l →
      renderResults env.render (l.take 10) = [] →
      (inline_query_handler env raw).results = [no_videos_result])
    ∧ (pyStrip raw ≠ "" →
        (env.db_search (parseTypeFilter (pyStrip raw)).1 (parseTypeFilter (pyStrip raw)).2
            = Except.ok [] →
          (inline_query_handler env raw).results
            = [no_results_result (parseTypeFilter (pyStrip raw)).1]
          ∧ ∃ a b : String,
              resultDescription (no_results_result (parseTypeFilter (pyStrip raw)).1)
                = a ++ (parseTypeFilter (pyStrip raw)).1 ++ b)
        ∧ (∀ l, env.db_search (parseTypeFilter (pyStrip raw)).1
              (parseTypeFilter (pyStrip raw)).2 = Except.ok l → l ≠ [] →
            renderResults env.render l = [] →
            (inline_query_handler env raw).results = [])) := by
  refine ⟨?_, fun hq => ⟨?_, ?_⟩⟩
  · intro hq l hdb hr
    rw [handler_browse_ok env raw l hs ha hq hdb]
    simp [hr]
  · intro hdb
    rw [handler_search_empty env raw hs ha hq hdb]
    refine ⟨rfl, "No results for " ++ quoteS, quoteS, ?_⟩
    simp [no_results_result, resultDescription, String.append_assoc]
  · intro l hdb hne hr
    rw [handler_search_ok env raw l hs ha hq hdb hne]
    simp [hr]

/-- Claim C3 (amended) witness: an empty search source answers exactly the
placeholder whose description embeds the term. -/
theorem c3_amended_witness :
    (inline_query_handler envC3W "x").results
      = [no_results_result (parseTypeFilter (pyStrip "x")).1]
    ∧ ∃ a b : String,
        resultDescription (no_results_result (parseTypeFilter (pyStrip "x")).1)
          = a ++ (parseTypeFilter (pyStrip "x")).1 ++ b :=
  ((c3_amended envC3W "x" rfl rfl).2 (by decide)).1 rfl

/-- Claim C4 counterexample: for a video record, an exception raised while
constructing the cached-video result does not yield an absent result — the
record renders as the fallback cached-document — contradicting the claim
that for every `file_type` a construction exception yields absence. -/
theorem c4_counterexample :
    (mkRenv videoRaises).exc.video vidRec 0 = true
    ∧ create_inline_result (mkRenv videoRaises) vidRec 0
        = some (InlineResult.cachedDocument "doc_fallback_0" ("📄 " ++ displayName vidRec)
            (mediaDescription (mkRenv videoRaises) vidRec) "fidV")
    ∧ create_inline_result (mkRenv videoRaises) vidRec 0 ≠ none := by
  exact ⟨rfl, by decide, by decide⟩

/-- Claim C4 (amended): an exception chain that produces no result — the
sole constructor raising for non-video types, or both the video constructor
and its document fallback raising — yields an absent result for that index
only: the page equals the rendering of the remaining indexed records,
truncated to the page cap, with the normal cache duration, never the
whole-page error response. -/
theorem c4_amended (env : Env) (raw : String) (l : List MediaRecord) (i : Nat)
    (fid : String) (hs : env.subscribed = true) (ha : env.authorized = true)
    (hq : pyStrip raw ≠ "")
    (hdb : env.db_search (parseTypeFilter (pyStrip raw)).1
             (parseTypeFilter (pyStrip raw)).2 = Except.ok l) (hne : l ≠ [])
    (hi : i < l.length) (hfid : truthy (l.get ⟨i, hi⟩).file_id = some fid)
    (hraise : raisesFor env.render (l.get ⟨i, hi⟩) i = true) :
    create_inline_result env.render (l.get ⟨i, hi⟩) i = none
    ∧ (inline_query_handler env raw).results
        = ((l.enum.eraseIdx i).filterMap
            fun p => create_inline_result env.render p.2 p.1).take 50
    ∧ (inline_query_handler env raw).cache_time = env.cfg.CACHE_TIME := by
  have hc : create_inline_result env.render (l.get ⟨i, hi⟩) i = none :=
    create_eq_none_of_raisesFor env.render (l.get ⟨i, hi⟩) i fid hfid hraise
  have hh := handler_search_ok env raw l hs ha hq hdb hne
  refine ⟨hc, ?_, ?_⟩
  · rw [hh, renderResults_skip env.render l i hi hc]
  · rw [hh]

/-- Claim C4 (amended) witness: the middle record of three raising its
document constructor is skipped while the page stays on the normal path. -/
theorem c4_amended_witness :
    create_inline_result envC4W.render ([goodRec, goodRec, goodRec].get ⟨1, by decide⟩) 1
        = none
    ∧ (inline_query_handler envC4W "x").results
        = (([goodRec, goodRec, goodRec].enum.eraseIdx 1).filterMap
            fun p => create_inline_result envC4W.render p.2 p.1).take 50
    ∧ (inline_query_handler envC4W "x").cache_time = envC4W.cfg.CACHE_TIME :=
  c4_amended envC4W "x" [goodRec, goodRec, goodRec] 1 "fidA" rfl rfl (by decide) rfl
    (by decide) (by decide) (by decide) (by decide)

/-- Claim C5 counterexample: a video record with a present `file_id` whose
cached-video construction raises does not always yield the fallback
document — when the fallback construction raises too, the renderer returns
nothing. -/
theorem c5_counterexample :
    effType vidRec = "video"
    ∧ truthy vidRec.file_id = some "fidV"
    ∧ (mkRenv bothRaise).exc.video vidRec 0 = true
    ∧ create_inline_result (mkRenv bothRaise) vidRec 0 = none := by
  exact ⟨by decide, rfl, rfl, by decide⟩

/-- Claim C5 (amended): for a video record with a present `file_id` whose
cached-video construction raises, if the fallback document construction
succeeds then `create_inline_result` returns a cached-document result whose
id is `doc_fallback_` followed by the index, so the record still yields
exactly one rendered output. -/
theorem c5_amended (renv : RenderEnv) (m : MediaRecord) (i : Nat) (fid : String)
    (hfid : truthy m.file_id = some fid) (ht : effType m = "video")
    (hv : renv.exc.video m i = true) (hd : renv.exc.docFallback m i = false) :
    create_inline_result renv m i
      = some (InlineResult.cachedDocument ("doc_fallback_" ++ toString i)
          ("📄 " ++ displayName m) (mediaDescription renv m) fid) := by
  simp [create_inline_result, hfid, ht, hv, hd]

/-- Claim C5 (amended) witness: concrete fallback rendering at index 3. -/
theorem c5_amended_witness :
    create_inline_result (mkRenv videoRaises) vidRec 3
      = some (InlineResult.cachedDocument ("doc_fallback_" ++ toString 3)
          ("📄 " ++ displayName vidRec) (mediaDescription (mkRenv videoRaises) vidRec)
          "fidV") :=
  c5_amended (mkRenv videoRaises) vidRec 3 "fidV" rfl (by decide) rfl rfl

end Inline10
